import Mathlib

/-!
Verification of the Tweet Generator view (src/client/src/App.jsx).

The component holds four pieces of state (topic, generatedTweet, isLoading,
error) and one event handler, handleGenerateTweet, which validates the topic,
performs one fetch, and updates the state according to the outcome.  We embed
the handler as a pure function from the current view state and the outcome of
the exchange to the next view state, together with the request it emits and
the sequence of intermediate states produced by the individual setState calls.
-/

/-- String.prototype.trim: remove whitespace from both ends of the string.
Implemented by structural recursion on the character list so that concrete
instances reduce. -/
def jsTrim (s : String) : String :=
  String.mk
    (((s.data.dropWhile Char.isWhitespace).reverse.dropWhile
        Char.isWhitespace).reverse)

/-- A JavaScript value as it occurs in this program: a string, or the absent
value (undefined / missing field). -/
inductive JSVal where
  | undef : JSVal
  | str : String → JSVal
  deriving DecidableEq, Repr

/-- JavaScript truthiness for the values above: undefined is falsy, a string
is truthy iff it is non-empty. -/
def JSVal.truthy : JSVal → Bool
  | JSVal.undef => false
  | JSVal.str s => s != ""

/-- The parsed JSON body of a response, as the handler reads it: it looks at
the `error` field and the `tweet` field; `undef` models an absent field. -/
structure RespBody where
  error : JSVal
  tweet : JSVal
  deriving DecidableEq, Repr

/-- An HTTP response: its status code, and the result of `response.json()`
(`none` models a body that fails to parse as JSON). -/
structure HttpResponse where
  status : Nat
  json : Option RespBody
  deriving DecidableEq, Repr

/-- `Response.ok` of the fetch API: status in the range 200-299. -/
def HttpResponse.ok (r : HttpResponse) : Bool :=
  200 ≤ r.status && r.status ≤ 299

/-- The outcome of the single outbound exchange: the fetch promise either
rejects (network failure) or resolves with a response. -/
inductive Exchange where
  | networkError : Exchange
  | response : HttpResponse → Exchange
  deriving DecidableEq, Repr

/-- The view state of the App component: the four useState cells. -/
structure ViewState where
  topic : String
  generatedTweet : JSVal
  isLoading : Bool
  error : Option String
  deriving DecidableEq, Repr

/-- The initial state: useState gives topic = "", generatedTweet = "",
isLoading = false, error = null. -/
def initState : ViewState :=
  { topic := "", generatedTweet := JSVal.str "", isLoading := false,
    error := none }

/-- A minimal JSON value, enough to describe the request body built by
JSON.stringify. -/
inductive Json where
  | str : String → Json
  | obj : List (String × Json) → Json

/-- The outbound request the handler builds. -/
structure Request where
  url : String
  method : String
  contentType : String
  body : Json

/-- The validation message set when the trimmed topic is empty. -/
def validationMessage : String := "Please enter a topic."

/-- The message set by the catch block for every thrown failure. -/
def genericFailureMessage : String :=
  "Failed to generate tweet. Is the backend server running?"

/-- The fixed endpoint the handler posts to. -/
def apiUrl : String := "http://127.0.0.1:5000/api/generate-tweet"

/-- The request the handler sends, when it sends one: a POST with JSON
content type whose body is JSON.stringify of the one-field object
containing the (untrimmed) topic.  On a whitespace-only topic the handler
returns before fetch, so no request is made. -/
def requestOf (s : ViewState) : Option Request :=
  if jsTrim s.topic = "" then none
  else some { url := apiUrl, method := "POST",
              contentType := "application/json",
              body := Json.obj [("topic", Json.str s.topic)] }

/-- The early-return branch: setError of the validation message, nothing
else touched. -/
def validateFail (s : ViewState) : ViewState :=
  { s with error := some validationMessage }

/-- The three setState calls made before the fetch: setIsLoading(true),
setError(null), setGeneratedTweet(""). -/
def beginSubmit (s : ViewState) : ViewState :=
  { s with
    isLoading := true
    error := none
    generatedTweet := JSVal.str "" }

/-- The try/catch body after the fetch resolves.  A rejected fetch, a
non-ok status, an unparseable body, and a truthy data.error all throw, and
the catch block sets the one generic failure message (the thrown detail is
only logged).  Otherwise setGeneratedTweet(data.tweet). -/
def resolveExchange (s : ViewState) (ex : Exchange) : ViewState :=
  match ex with
  | Exchange.networkError => { s with error := some genericFailureMessage }
  | Exchange.response r =>
    if !r.ok then { s with error := some genericFailureMessage }
    else
      match r.json with
      | none => { s with error := some genericFailureMessage }
      | some data =>
        if data.error.truthy then
          { s with error := some genericFailureMessage }
        else { s with generatedTweet := data.tweet }

/-- The finally block: setIsLoading(false). -/
def finishSubmit (s : ViewState) : ViewState :=
  { s with isLoading := false }

/-- The sequence of states the view passes through during one invocation of
handleGenerateTweet: one state on the validation branch, otherwise the state
after the pre-fetch setters, the state after the outcome is applied, and the
state after the finally block. -/
def submitTrace (s : ViewState) (ex : Exchange) : List ViewState :=
  if jsTrim s.topic = "" then [validateFail s]
  else [beginSubmit s,
        resolveExchange (beginSubmit s) ex,
        finishSubmit (resolveExchange (beginSubmit s) ex)]

/-- The complete handler: the state after handleGenerateTweet returns, given
the outcome of the exchange. -/
def handleGenerateTweet (s : ViewState) (ex : Exchange) : ViewState :=
  if jsTrim s.topic = "" then validateFail s
  else finishSubmit (resolveExchange (beginSubmit s) ex)

/-- The render condition of the error panel: the JSX guard is the truthiness
of error (null is falsy, a non-empty string truthy). -/
def showErrorPanel (s : ViewState) : Bool :=
  match s.error with
  | none => false
  | some e => e != ""

/-- The render condition of the result panel: the truthiness of
generatedTweet. -/
def showResultPanel (s : ViewState) : Bool :=
  s.generatedTweet.truthy

/-- An exchange is a transport-level failure when the fetch rejects, the
status is not 2xx, or the body does not parse as JSON. -/
def isTransportFailure : Exchange → Bool
  | Exchange.networkError => true
  | Exchange.response r => !r.ok || r.json.isNone

/-- The states the view can be in between handler invocations: the initial
state, any state with the topic retyped, and any state produced by running
the handler while the submit control is enabled (isLoading false). -/
inductive Reachable : ViewState → Prop where
  | start : Reachable initState
  | typeTopic (s : ViewState) (t : String) :
      Reachable s → Reachable { s with topic := t }
  | submit (s : ViewState) (ex : Exchange) :
      Reachable s → s.isLoading = false →
      Reachable (handleGenerateTweet s ex)

/-- resolveExchange never touches isLoading. -/
theorem resolveExchange_isLoading (s : ViewState) (ex : Exchange) :
    (resolveExchange s ex).isLoading = s.isLoading := by
  cases ex with
  | networkError => rfl
  | response r =>
    unfold resolveExchange
    by_cases hok : r.ok = true
    · simp only [hok, Bool.not_true, Bool.false_eq_true, if_false]
      cases hj : r.json with
      | none => rfl
      | some data =>
        by_cases he : data.error.truthy = true
        · simp [he]
        · simp [he]
    · simp [Bool.not_eq_true] at hok
      simp [hok]

/-- resolveExchange never touches topic. -/
theorem resolveExchange_topic (s : ViewState) (ex : Exchange) :
    (resolveExchange s ex).topic = s.topic := by
  cases ex with
  | networkError => rfl
  | response r =>
    unfold resolveExchange
    by_cases hok : r.ok = true
    · simp only [hok, Bool.not_true, Bool.false_eq_true, if_false]
      cases hj : r.json with
      | none => rfl
      | some data =>
        by_cases he : data.error.truthy = true
        · simp [he]
        · simp [he]
    · simp [Bool.not_eq_true] at hok
      simp [hok]

/-- C3: on a topic that trims to the empty string, the handler makes no
request, sets the error to exactly "Please enter a topic.", and at no point
in its execution changes isLoading. -/
theorem c3_validation (s : ViewState) (ex : Exchange)
    (hw : jsTrim s.topic = "") :
    requestOf s = none ∧
    (handleGenerateTweet s ex).error = some "Please enter a topic." ∧
    (handleGenerateTweet s ex).isLoading = s.isLoading ∧
    ∀ t ∈ submitTrace s ex, t.isLoading = s.isLoading := by
  refine ⟨?_, ?_, ?_, ?_⟩
  · simp [requestOf, hw]
  · simp [handleGenerateTweet, hw, validateFail, validationMessage]
  · simp [handleGenerateTweet, hw, validateFail]
  · intro t ht
    simp [submitTrace, hw] at ht
    simp [ht, validateFail]

/-- C3 witness: the whitespace-only topic "  " makes no request, sets the
validation message and leaves loading false. -/
theorem c3_validation_witness :
    requestOf { initState with topic := "  " } = none ∧
    (handleGenerateTweet { initState with topic := "  " }
        Exchange.networkError).error = some "Please enter a topic." := by
  have h := c3_validation { initState with topic := "  " }
      Exchange.networkError (by decide)
  exact ⟨h.1, h.2.1⟩

/-- C4: on a valid topic, a 2xx response whose parsed body carries a tweet
field T and no error field sets the result to exactly T and leaves the error
empty. -/
theorem c4_success (s : ViewState) (r : HttpResponse) (data : RespBody)
    (T : String) (hv : jsTrim s.topic ≠ "") (hok : r.ok = true)
    (hj : r.json = some data) (hne : data.error = JSVal.undef)
    (ht : data.tweet = JSVal.str T) :
    (handleGenerateTweet s (Exchange.response r)).generatedTweet =
      JSVal.str T ∧
    (handleGenerateTweet s (Exchange.response r)).error = none := by
  unfold handleGenerateTweet
  rw [if_neg hv]
  unfold finishSubmit resolveExchange
  simp only [hok, Bool.not_true, Bool.false_eq_true, if_false, hj]
  have htr : data.error.truthy = false := by rw [hne]; rfl
  simp [htr, ht, beginSubmit]

/-- A state whose topic is "renewable energy", used to exercise the success
path on a concrete input. -/
def energyState : ViewState := { initState with topic := "renewable energy" }

/-- A concrete 200 response carrying a tweet and no error field. -/
def solarResponse : HttpResponse :=
  { status := 200,
    json := some { error := JSVal.undef,
                   tweet := JSVal.str "Solar is the future" } }

/-- C4 witness: topic "renewable energy", response 200 with tweet
"Solar is the future", no error field. -/
theorem c4_success_witness :
    (handleGenerateTweet energyState
        (Exchange.response solarResponse)).generatedTweet =
      JSVal.str "Solar is the future" := by
  exact (c4_success energyState solarResponse
    { error := JSVal.undef, tweet := JSVal.str "Solar is the future" }
    "Solar is the future" (by decide) (by decide) rfl rfl rfl).1

/-- C5: on a valid topic, a rejected fetch, a non-2xx status, or an
unparseable body all set the error to the single generic failure message and
leave the result empty. -/
theorem c5_transport (s : ViewState) (ex : Exchange)
    (hv : jsTrim s.topic ≠ "") (hf : isTransportFailure ex = true) :
    (handleGenerateTweet s ex).error = some genericFailureMessage ∧
    (handleGenerateTweet s ex).generatedTweet = JSVal.str "" := by
  unfold handleGenerateTweet
  rw [if_neg hv]
  cases ex with
  | networkError =>
    exact ⟨rfl, rfl⟩
  | response r =>
    unfold isTransportFailure at hf
    unfold finishSubmit resolveExchange
    by_cases hok : r.ok = true
    · simp only [hok, Bool.not_true, Bool.true_or, Bool.false_or] at hf
      have hnone : r.json = none := Option.isNone_iff_eq_none.mp hf
      simp [hok, hnone, beginSubmit]
    · rw [Bool.not_eq_true] at hok
      simp [hok, beginSubmit]

/-- C5 witness: topic "AI" with a rejected fetch (network failure) gives the
generic message and an empty result. -/
theorem c5_transport_witness :
    (handleGenerateTweet { initState with topic := "AI" }
        Exchange.networkError).error = some genericFailureMessage ∧
    (handleGenerateTweet { initState with topic := "AI" }
        Exchange.networkError).generatedTweet = JSVal.str "" := by
  exact c5_transport { initState with topic := "AI" }
    Exchange.networkError (by decide) rfl

/-- C7: on a valid topic the first state the handler produces, before the
exchange, has loading set to true, the error cleared to none and the result
cleared to the empty string, and exactly one outbound request is made. -/
theorem c7_begin (s : ViewState) (ex : Exchange)
    (hv : jsTrim s.topic ≠ "") :
    (submitTrace s ex).head? = some (beginSubmit s) ∧
    (beginSubmit s).isLoading = true ∧
    (beginSubmit s).error = none ∧
    (beginSubmit s).generatedTweet = JSVal.str "" ∧
    ∃ req, requestOf s = some req := by
  refine ⟨?_, rfl, rfl, rfl, ?_⟩
  · simp [submitTrace, hv]
  · simp [requestOf, hv]

/-- A state whose topic is "AI", used by several concrete instantiations. -/
def aiState : ViewState := { initState with topic := "AI" }

/-- C7 witness: the concrete topic "AI" first enters the loading/cleared
state and emits one request. -/
theorem c7_begin_witness :
    (submitTrace aiState Exchange.networkError).head? =
      some (beginSubmit aiState) ∧
    (beginSubmit aiState).isLoading = true := by
  have h := c7_begin aiState Exchange.networkError (by decide)
  exact ⟨h.1, h.2.1⟩

/-- C8: every request the handler emits is a POST, declares a JSON content
type, and its body is the JSON object with the single field topic holding
the topic string. -/
theorem c8_request (s : ViewState) (hv : jsTrim s.topic ≠ "") :
    ∃ req, requestOf s = some req ∧
      req.method = "POST" ∧
      req.contentType = "application/json" ∧
      req.body = Json.obj [("topic", Json.str s.topic)] := by
  refine ⟨{ url := apiUrl, method := "POST",
            contentType := "application/json",
            body := Json.obj [("topic", Json.str s.topic)] },
    ?_, rfl, rfl, rfl⟩
  simp [requestOf, hv]

/-- C8 witness: the request for the concrete topic "AI". -/
theorem c8_request_witness :
    ∃ req, requestOf aiState = some req ∧
      req.method = "POST" ∧
      req.contentType = "application/json" ∧
      req.body = Json.obj [("topic", Json.str "AI")] := by
  exact c8_request aiState (by decide)

/-- C9: the handler never writes the topic: the final state and every
intermediate state carry the caller's topic unchanged, for every exchange
outcome. -/
theorem c9_topic_preserved (s : ViewState) (ex : Exchange) :
    (handleGenerateTweet s ex).topic = s.topic ∧
    ∀ t ∈ submitTrace s ex, t.topic = s.topic := by
  constructor
  · unfold handleGenerateTweet
    by_cases hw : jsTrim s.topic = ""
    · simp [hw, validateFail]
    · simp only [hw, if_false]
      show (resolveExchange (beginSubmit s) ex).topic = s.topic
      rw [resolveExchange_topic]
      rfl
  · intro t ht
    unfold submitTrace at ht
    by_cases hw : jsTrim s.topic = ""
    · simp [hw] at ht
      simp [ht, validateFail]
    · simp [hw] at ht
      rcases ht with h1 | h2 | h3
      · simp [h1, beginSubmit]
      · rw [h2, resolveExchange_topic]; rfl
      · rw [h3]
        show (resolveExchange (beginSubmit s) ex).topic = s.topic
        rw [resolveExchange_topic]; rfl

/-- C10: on a valid topic, a 2xx parsed response whose body has no truthy
error field and no tweet field is treated as success: the result becomes the
absent field's value (undefined), the error stays empty, and neither panel
is rendered. -/
theorem c10_empty_success (s : ViewState) (r : HttpResponse)
    (data : RespBody) (hv : jsTrim s.topic ≠ "") (hok : r.ok = true)
    (hj : r.json = some data) (hne : data.error.truthy = false)
    (ht : data.tweet = JSVal.undef) :
    (handleGenerateTweet s (Exchange.response r)).generatedTweet =
      JSVal.undef ∧
    (handleGenerateTweet s (Exchange.response r)).error = none ∧
    showResultPanel (handleGenerateTweet s (Exchange.response r)) = false ∧
    showErrorPanel (handleGenerateTweet s (Exchange.response r)) = false := by
  have hmain : handleGenerateTweet s (Exchange.response r) =
      { s with
        generatedTweet := JSVal.undef
        isLoading := false
        error := none } := by
    unfold handleGenerateTweet
    rw [if_neg hv]
    unfold finishSubmit resolveExchange
    simp [hok, hj, hne, ht, beginSubmit]
  rw [hmain]
  exact ⟨rfl, rfl, rfl, rfl⟩

/-- A concrete 200 response whose body has a falsy error field ("") and no
tweet field. -/
def emptyBodyResponse : HttpResponse :=
  { status := 200,
    json := some { error := JSVal.str "", tweet := JSVal.undef } }

/-- C10 witness: a 200 response with body error = "" (falsy) and no tweet
field leaves undefined in the result state and shows neither panel. -/
theorem c10_empty_success_witness :
    (handleGenerateTweet aiState
      (Exchange.response emptyBodyResponse)).error = none := by
  exact (c10_empty_success aiState emptyBodyResponse
    { error := JSVal.str "", tweet := JSVal.undef }
    (by decide) (by decide) rfl rfl rfl).2.1

/-- C6: for a valid submission, whatever the exchange outcome, the first
state of the invocation has loading true, loading stays true in every state
before the last, and the last state (the handler's result) has loading
false; an invalid submission never raises loading. -/
theorem c6_loading (s : ViewState) (ex : Exchange)
    (hv : jsTrim s.topic ≠ "") :
    (submitTrace s ex).head? = some (beginSubmit s) ∧
    (beginSubmit s).isLoading = true ∧
    (∀ t ∈ (submitTrace s ex).dropLast, t.isLoading = true) ∧
    (submitTrace s ex).getLast? = some (handleGenerateTweet s ex) ∧
    (handleGenerateTweet s ex).isLoading = false := by
  refine ⟨?_, rfl, ?_, ?_, ?_⟩
  · simp [submitTrace, hv]
  · intro t ht
    simp [submitTrace, hv] at ht
    rcases ht with h1 | h2
    · simp [h1, beginSubmit]
    · rw [h2, resolveExchange_isLoading]; rfl
  · simp [submitTrace, handleGenerateTweet, hv]
  · simp [handleGenerateTweet, hv, finishSubmit]

/-- C6 witness: for the topic "AI" and a network failure, loading is true
at submission start and false in the final state. -/
theorem c6_loading_witness :
    (beginSubmit aiState).isLoading = true ∧
    (handleGenerateTweet aiState Exchange.networkError).isLoading =
      false := by
  have h := c6_loading aiState Exchange.networkError (by decide)
  exact ⟨h.2.1, h.2.2.2.2⟩

/-- A concrete response carrying a truthy application error field. -/
def boomResponse : HttpResponse :=
  { status := 200,
    json := some { error := JSVal.str "boom", tweet := JSVal.undef } }

/-- C1 counterexample: at topic "AI" and a 200 response whose body is the
object with error field "boom", the handler does not set the view error to
"boom": it sets the generic failure message instead (the thrown detail is
only logged). -/
theorem c1_counterexample :
    (handleGenerateTweet aiState (Exchange.response boomResponse)).error ≠
      some "boom" ∧
    (handleGenerateTweet aiState (Exchange.response boomResponse)).error =
      some genericFailureMessage := by
  constructor
  · intro h
    have : some genericFailureMessage = some "boom" := by
      rw [← h]; rfl
    simp [genericFailureMessage] at this
  · rfl

/-- C1 (amended): for every exchange whose response body parses and carries
a truthy error field E, regardless of HTTP status, the handler sets the
view error to the fixed generic failure message (not to E, which is only
logged) and leaves the result empty. -/
theorem c1_amended (s : ViewState) (r : HttpResponse) (data : RespBody)
    (hv : jsTrim s.topic ≠ "") (hj : r.json = some data)
    (he : data.error.truthy = true) :
    (handleGenerateTweet s (Exchange.response r)).error =
      some genericFailureMessage ∧
    (handleGenerateTweet s (Exchange.response r)).generatedTweet =
      JSVal.str "" := by
  unfold handleGenerateTweet
  rw [if_neg hv]
  unfold finishSubmit resolveExchange
  by_cases hok : r.ok = true
  · simp [hok, hj, he, beginSubmit]
  · rw [Bool.not_eq_true] at hok
    simp [hok, beginSubmit]

/-- C1 amended witness: the concrete error body "boom" at status 200 yields
the generic message and an empty result. -/
theorem c1_amended_witness :
    (handleGenerateTweet aiState (Exchange.response boomResponse)).error =
      some genericFailureMessage ∧
    (handleGenerateTweet aiState
        (Exchange.response boomResponse)).generatedTweet =
      JSVal.str "" := by
  exact c1_amended aiState boomResponse
    { error := JSVal.str "boom", tweet := JSVal.undef }
    (by decide) rfl rfl

/-- The state after a successful exchange on topic "AI" (result "hi"),
re-typed to the whitespace-only topic " ". -/
def staleResultState : ViewState :=
  { handleGenerateTweet aiState (Exchange.response
      { status := 200,
        json := some { error := JSVal.undef, tweet := JSVal.str "hi" } })
    with topic := " " }

/-- The state reached from staleResultState by submitting again: the
validation branch sets the error but does not clear the stale result. -/
def bothPanelsState : ViewState :=
  handleGenerateTweet staleResultState Exchange.networkError

/-- C2 counterexample: a successful exchange followed by a whitespace-only
submit yields a reachable state in which the error message and the
generated result are both non-empty, so both panels render together. -/
theorem c2_counterexample :
    Reachable bothPanelsState ∧
    showErrorPanel bothPanelsState = true ∧
    showResultPanel bothPanelsState = true := by
  refine ⟨?_, by decide, by decide⟩
  have h0 : Reachable aiState :=
    Reachable.typeTopic initState "AI" Reachable.start
  have h1 : Reachable (handleGenerateTweet aiState (Exchange.response
      { status := 200,
        json := some { error := JSVal.undef,
                       tweet := JSVal.str "hi" } })) :=
    Reachable.submit aiState _ h0 rfl
  have h2 : Reachable staleResultState :=
    Reachable.typeTopic _ " " h1
  exact Reachable.submit staleResultState Exchange.networkError h2 rfl

/-- C2 (amended): after every completed exchange (valid submission, any
outcome) at most one of the error message and the result is non-empty, so
at most one panel renders; the validation branch, however, sets the error
without clearing a result left by an earlier success, so the two panels are
not mutually exclusive over all reachable states. -/
theorem c2_amended (s : ViewState) (ex : Exchange)
    (hv : jsTrim s.topic ≠ "") :
    showErrorPanel (handleGenerateTweet s ex) = false ∨
    showResultPanel (handleGenerateTweet s ex) = false := by
  unfold handleGenerateTweet
  rw [if_neg hv]
  unfold finishSubmit resolveExchange
  cases ex with
  | networkError =>
    right
    simp [showResultPanel, beginSubmit, JSVal.truthy]
  | response r =>
    by_cases hok : r.ok = true
    · simp only [hok, Bool.not_true, Bool.false_eq_true, if_false]
      cases hj : r.json with
      | none =>
        right
        simp [showResultPanel, beginSubmit, JSVal.truthy]
      | some data =>
        by_cases he : data.error.truthy = true
        · right
          simp only [he, if_true]
          simp [showResultPanel, beginSubmit, JSVal.truthy]
        · left
          simp only [Bool.not_eq_true] at he
          simp [he, showErrorPanel, beginSubmit]
    · right
      rw [Bool.not_eq_true] at hok
      simp [hok, showResultPanel, beginSubmit, JSVal.truthy]

/-- C2 amended witness: the success exchange on topic "AI" shows the result
panel only. -/
theorem c2_amended_witness :
    showErrorPanel (handleGenerateTweet aiState
      (Exchange.response solarResponse)) = false ∨
    showResultPanel (handleGenerateTweet aiState
      (Exchange.response solarResponse)) = false := by
  exact c2_amended aiState (Exchange.response solarResponse) (by decide)
